import Mathlib

/-!
# Verification of `src/services/geminiService.ts`

A shallow embedding of the gemini service module: the lazily-initialised
client accessor (`getAiInstance`), the error classifier (`handleError`),
and the six exported operations (`generateImage`, `generateStructuredText`,
`generateText`, `generateTextWithImage`, `editImage`,
`generateColorPalette`).

Modelling conventions:
* JavaScript strings are Lean `String`s; the JS string methods used by the
  source (`includes`, `startsWith`, `trim`) are embedded as executable
  functions on the character list.
* `JSON.parse` is embedded as an executable, strict JSON parser producing
  a `Json` value (numbers are kept as their lexemes: the source never
  inspects numeric values, so no floating-point semantics are needed).
* A caught JS value is either an `Error` carrying a message, or some
  non-`Error` value (`JsValue.other`).
* Each exported operation is a function of the configuration credential
  (`process.env.API_KEY`), the module-level memoised client, and the
  outcome of the single remote call it performs (an oracle argument:
  either a response value or a caught failure).  The operation returns its
  result (or the error it rejects with), the new module state, and whether
  the remote call was reached.
-/

set_option linter.unusedVariables false
set_option maxRecDepth 8192

namespace GeminiService

/-! ## JS string primitives -/

/-- The double-quote character (written via its code point to keep string
handling uniform). -/
def quoteChar : Char := Char.ofNat 34

/-- The backslash character. -/
def backslashChar : Char := Char.ofNat 92

/-- The opening curly brace character. -/
def lbrace : Char := Char.ofNat 123

/-- The closing curly brace character. -/
def rbrace : Char := Char.ofNat 125

/-- Embedding of `String.prototype.startsWith`. -/
def strStartsWith (s pre : String) : Bool :=
  pre.data.isPrefixOf s.data

/-- Does `pat` occur as a contiguous run inside `l`?  (Helper for
`String.prototype.includes`.) -/
def listContainsSub (pat : List Char) : List Char → Bool
  | [] => pat.isEmpty
  | c :: rest => pat.isPrefixOf (c :: rest) || listContainsSub pat rest

/-- Embedding of `String.prototype.includes`. -/
def strIncludes (s pat : String) : Bool :=
  listContainsSub pat.data s.data

/-- Whitespace recognised by `String.prototype.trim` (the code points the
source can realistically meet; the claims only exercise plain spaces). -/
def isJsTrimWs (c : Char) : Bool :=
  c = ' ' || c = Char.ofNat 9 || c = Char.ofNat 10 || c = Char.ofNat 13 ||
  c = Char.ofNat 11 || c = Char.ofNat 12 || c = Char.ofNat 160

/-- Embedding of `String.prototype.trim`. -/
def strTrim (s : String) : String :=
  String.mk (((s.data.dropWhile isJsTrimWs).reverse.dropWhile isJsTrimWs).reverse)

/-- JS truthiness of a `string | null | undefined` value: `null`,
`undefined` and the empty string are falsy. -/
def jsTruthyStr : Option String → Bool
  | none => false
  | some s => !(s == "")

/-! ## JSON values and `JSON.parse` -/

/-- A parsed JSON value.  Numbers keep their source lexeme: the service
code never reads a numeric value out of parsed JSON. -/
inductive Json where
  | null : Json
  | bool (b : Bool) : Json
  | num (lexeme : String) : Json
  | str (s : String) : Json
  | arr (elems : List Json) : Json
  | obj (fields : List (String × Json)) : Json

/-- Whitespace accepted between JSON tokens (RFC 8259 / `JSON.parse`). -/
def isJsonWs (c : Char) : Bool :=
  c = ' ' || c = Char.ofNat 9 || c = Char.ofNat 10 || c = Char.ofNat 13

/-- Drop leading JSON whitespace. -/
def skipJsonWs (l : List Char) : List Char :=
  l.dropWhile isJsonWs

/-- Value of a hexadecimal digit. -/
def hexVal (c : Char) : Option Nat :=
  if 48 ≤ c.toNat && c.toNat ≤ 57 then some (c.toNat - 48)
  else if 97 ≤ c.toNat && c.toNat ≤ 102 then some (c.toNat - 87)
  else if 65 ≤ c.toNat && c.toNat ≤ 70 then some (c.toNat - 55)
  else none

/-- Parse the body of a JSON string (the opening quote already consumed),
returning the decoded characters and the input following the closing
quote.  Handles the escape sequences of RFC 8259, including `\uXXXX`. -/
def parseStringChars : List Char → Option (List Char × List Char)
  | [] => none
  | c :: rest =>
    if c = quoteChar then some ([], rest)
    else if c = backslashChar then
      match rest with
      | [] => none
      | e :: rest2 =>
        if e = quoteChar then (parseStringChars rest2).map (fun p => (quoteChar :: p.1, p.2))
        else if e = backslashChar then (parseStringChars rest2).map (fun p => (backslashChar :: p.1, p.2))
        else if e = '/' then (parseStringChars rest2).map (fun p => ('/' :: p.1, p.2))
        else if e = 'b' then (parseStringChars rest2).map (fun p => (Char.ofNat 8 :: p.1, p.2))
        else if e = 'f' then (parseStringChars rest2).map (fun p => (Char.ofNat 12 :: p.1, p.2))
        else if e = 'n' then (parseStringChars rest2).map (fun p => (Char.ofNat 10 :: p.1, p.2))
        else if e = 'r' then (parseStringChars rest2).map (fun p => (Char.ofNat 13 :: p.1, p.2))
        else if e = 't' then (parseStringChars rest2).map (fun p => (Char.ofNat 9 :: p.1, p.2))
        else if e = 'u' then
          match rest2 with
          | h1 :: h2 :: h3 :: h4 :: rest3 =>
            match hexVal h1, hexVal h2, hexVal h3, hexVal h4 with
            | some a, some b, some c2, some d =>
              (parseStringChars rest3).map
                (fun p => (Char.ofNat (4096 * a + 256 * b + 16 * c2 + d) :: p.1, p.2))
            | _, _, _, _ => none
          | _ => none
        else none
    else if c.toNat < 32 then none
    else (parseStringChars rest).map (fun p => (c :: p.1, p.2))

/-- Parse the optional fraction part of a JSON number. -/
def parseFracPart (l : List Char) : Option (List Char × List Char) :=
  match l with
  | [] => some ([], l)
  | c :: rest =>
    if c = '.' then
      match rest with
      | [] => none
      | d :: _ =>
        if d.isDigit then
          let p := rest.span Char.isDigit
          some (c :: p.1, p.2)
        else none
    else some ([], l)

/-- Parse the optional exponent part of a JSON number. -/
def parseExpPart (l : List Char) : Option (List Char × List Char) :=
  match l with
  | [] => some ([], l)
  | c :: rest =>
    if c = 'e' || c = 'E' then
      let sgn : List Char × List Char :=
        match rest with
        | s :: r => if s = '+' || s = '-' then ([s], r) else ([], rest)
        | [] => ([], rest)
      match sgn.2 with
      | [] => none
      | d :: _ =>
        if d.isDigit then
          let p := sgn.2.span Char.isDigit
          some (c :: (sgn.1 ++ p.1), p.2)
        else none
    else some ([], l)

/-- Parse a JSON number (strict grammar of RFC 8259), returning its lexeme
and the remaining input. -/
def parseJsonNumber (l : List Char) : Option (String × List Char) :=
  let sp : List Char × List Char :=
    match l with
    | c :: rest => if c = '-' then ([c], rest) else ([], l)
    | [] => ([], l)
  match sp.2 with
  | [] => none
  | c :: rest =>
    let ip : Option (List Char × List Char) :=
      if c = '0' then some (sp.1 ++ [c], rest)
      else if c.isDigit then
        let p := rest.span Char.isDigit
        some (sp.1 ++ c :: p.1, p.2)
      else none
    match ip with
    | none => none
    | some (ichars, rest2) =>
      match parseFracPart rest2 with
      | none => none
      | some (fchars, rest3) =>
        match parseExpPart rest3 with
        | none => none
        | some (echars, rest4) => some (String.mk (ichars ++ fchars ++ echars), rest4)

mutual

/-- Parse one JSON value (no leading whitespace). -/
def parseJsonValue : Nat → List Char → Option (Json × List Char)
  | 0, _ => none
  | Nat.succ fuel, l =>
    match l with
    | [] => none
    | c :: rest =>
      if c = quoteChar then
        match parseStringChars rest with
        | some (cs, rem) => some (Json.str (String.mk cs), rem)
        | none => none
      else if c = lbrace then
        let l2 := skipJsonWs rest
        match l2 with
        | [] => none
        | d :: rest2 =>
          if d = rbrace then some (Json.obj [], rest2)
          else
            match parseJsonMembers fuel l2 with
            | some (ms, rem) => some (Json.obj ms, rem)
            | none => none
      else if c = '[' then
        let l2 := skipJsonWs rest
        match l2 with
        | [] => none
        | d :: rest2 =>
          if d = ']' then some (Json.arr [], rest2)
          else
            match parseJsonElems fuel l2 with
            | some (es, rem) => some (Json.arr es, rem)
            | none => none
      else if c = 't' then
        match rest with
        | 'r' :: 'u' :: 'e' :: r => some (Json.bool true, r)
        | _ => none
      else if c = 'f' then
        match rest with
        | 'a' :: 'l' :: 's' :: 'e' :: r => some (Json.bool false, r)
        | _ => none
      else if c = 'n' then
        match rest with
        | 'u' :: 'l' :: 'l' :: r => some (Json.null, r)
        | _ => none
      else if c = '-' || c.isDigit then
        match parseJsonNumber l with
        | some (lex, rem) => some (Json.num lex, rem)
        | none => none
      else none

/-- Parse the comma-separated elements of a non-empty JSON array, up to and
including the closing bracket. -/
def parseJsonElems : Nat → List Char → Option (List Json × List Char)
  | 0, _ => none
  | Nat.succ fuel, l =>
    match parseJsonValue fuel l with
    | none => none
    | some (v, rem) =>
      match skipJsonWs rem with
      | [] => none
      | c :: rest =>
        if c = ',' then
          match parseJsonElems fuel (skipJsonWs rest) with
          | some (es, r) => some (v :: es, r)
          | none => none
        else if c = ']' then some ([v], rest)
        else none

/-- Parse the comma-separated members of a non-empty JSON object, up to and
including the closing brace. -/
def parseJsonMembers : Nat → List Char → Option (List (String × Json) × List Char)
  | 0, _ => none
  | Nat.succ fuel, l =>
    match l with
    | [] => none
    | c :: rest =>
      if c = quoteChar then
        match parseStringChars rest with
        | none => none
        | some (kcs, rem) =>
          match skipJsonWs rem with
          | [] => none
          | d :: rest2 =>
            if d = ':' then
              match parseJsonValue fuel (skipJsonWs rest2) with
              | none => none
              | some (v, rem2) =>
                match skipJsonWs rem2 with
                | [] => none
                | e :: rest3 =>
                  if e = ',' then
                    match parseJsonMembers fuel (skipJsonWs rest3) with
                    | some (ms, r) => some ((String.mk kcs, v) :: ms, r)
                    | none => none
                  else if e = rbrace then some ([(String.mk kcs, v)], rest3)
                  else none
            else none
      else none

end

/-- Embedding of `JSON.parse`: `some` on success, `none` when the real
`JSON.parse` would throw a `SyntaxError`. -/
def jsonParse (s : String) : Option Json :=
  match parseJsonValue (2 * s.data.length + 2) (skipJsonWs s.data) with
  | some (v, rest) => if (skipJsonWs rest).isEmpty then some v else none
  | none => none

/-! ## JS property access on parsed JSON -/

/-- Last binding of a key in an object's field list: `JSON.parse` keeps the
last occurrence of a duplicated key, so lookup takes the rightmost match. -/
def lookupLast : List (String × Json) → String → Option Json
  | [], _ => none
  | (k2, v) :: rest, k =>
    match lookupLast rest k with
    | some r => some r
    | none => if k2 == k then some v else none

/-- Optional-chained property access `v?.k` on a parsed JSON value
(`none` plays the role of `undefined`): access on `null`/`undefined`
short-circuits to `undefined`, access on a non-object yields `undefined`,
and access on an object looks the key up. -/
def optChainField (v : Option Json) (k : String) : Option Json :=
  match v with
  | none => none
  | some Json.null => none
  | some (Json.obj fs) => lookupLast fs k
  | some _ => none

/-- JS truthiness of a parsed JSON value.  A number is falsy exactly when
its mantissa has no non-zero digit. -/
def jsTruthy : Json → Bool
  | Json.null => false
  | Json.bool b => b
  | Json.num lex =>
    !((lex.data.takeWhile (fun c => !(c == 'e' || c == 'E'))).all
        (fun c => !c.isDigit || c == '0'))
  | Json.str s => !(s == "")
  | Json.arr _ => true
  | Json.obj _ => true

/-! ## Errors and the error classifier -/

/-- A JS `Error` object, reduced to the only field the service inspects:
its `message`. -/
structure JsError where
  message : String
deriving DecidableEq, Repr

/-- A caught JS value: either an `Error` or some non-`Error` value. -/
inductive JsValue where
  | jsError (e : JsError) : JsValue
  | other : JsValue
deriving DecidableEq, Repr

/-- The fixed localized configuration-error message thrown by
`getAiInstance` (line 14) and by `handleError` (line 50); the two source
literals are identical. -/
def configErrorMessage : String :=
  "Error de Configuración: La API Key para el servicio de IA no ha sido configurada. El administrador del sitio debe añadirla en los ajustes de despliegue para que la aplicación funcione."

/-- One step of `details.some((d) => d.reason === 'API_KEY_INVALID')`
(lines 40-42).  The scan visits the entries in order; plain property
access `d.reason` on a `null` entry throws a `TypeError` (`Except.error`),
which aborts the whole probe; on any other non-object it yields
`undefined`, which compares unequal to the sentinel. -/
def detailsScan : List Json → Except Unit Bool
  | [] => Except.ok false
  | d :: rest =>
    match d with
    | Json.null => Except.error ()
    | Json.obj fs =>
      match lookupLast fs "reason" with
      | some (Json.str r) => if r == "API_KEY_INVALID" then Except.ok true else detailsScan rest
      | _ => detailsScan rest
    | _ => detailsScan rest

/-- The `isApiKeyError` computation of `handleError` (lines 31-47): the two
substring checks first; only if both fail, the structured JSON probe, whose
`JSON.parse` failure — and equally a `TypeError` thrown while scanning
`error.details` — is swallowed by the enclosing `catch` (line 44). -/
def isApiKeyErrorOf (msg : String) : Bool :=
  if strIncludes msg "API key not valid" || strIncludes msg "API_KEY_INVALID" then true
  else
    match jsonParse msg with
    | none => false
    | some parsed =>
      match optChainField (optChainField (some parsed) "error") "details" with
      | some (Json.arr ds) =>
        match detailsScan ds with
        | Except.ok b => b
        | Except.error _ => false
      | _ => false

/-- The error classifier `handleError` (lines 21-57).  The TS function has
return type `never`: every control path throws.  The embedding returns the
raised error as `some _`; a (non-existent) normal return would be `none`,
so that the never-returns property is a provable statement rather than a
typing artifact. -/
def handleError (error : JsValue) (context : String) : Option JsError :=
  match error with
  | JsValue.jsError e =>
    if strStartsWith e.message "Error de Configuración" then
      some e
    else if isApiKeyErrorOf e.message then
      some { message := configErrorMessage }
    else
      some { message := "Failed to " ++ context ++ ". " ++ e.message }
  | JsValue.other =>
    some { message := "An unknown error occurred while trying to " ++ context ++ "." }

/-- The `isApiKeyError` computation with the structured-JSON probe removed
(only the two substring checks of line 32).  Used to settle the claim that
the probe is behaviourally redundant. -/
def isApiKeyErrorNoProbe (msg : String) : Bool :=
  strIncludes msg "API key not valid" || strIncludes msg "API_KEY_INVALID"

/-- `handleError` with the structured-JSON probe branch (lines 35-47)
removed, everything else unchanged. -/
def handleErrorNoProbe (error : JsValue) (context : String) : Option JsError :=
  match error with
  | JsValue.jsError e =>
    if strStartsWith e.message "Error de Configuración" then
      some e
    else if isApiKeyErrorNoProbe e.message then
      some { message := configErrorMessage }
    else
      some { message := "Failed to " ++ context ++ ". " ++ e.message }
  | JsValue.other =>
    some { message := "An unknown error occurred while trying to " ++ context ++ "." }

/-- The error the operations reject with when their `catch` block runs
`handleError`.  `handleError` raises on every input (see the claim about
its `never` return type); the `Option.getD` default is dead code required
only for totality. -/
def catchWith (context : String) (v : JsValue) : JsError :=
  (handleError v context).getD { message := "" }

/-! ## Client provider and module state -/

/-- The SDK client handle, reduced to the credential it was built with. -/
structure GoogleGenAI where
  apiKey : String
deriving DecidableEq, Repr

/-- The module-level mutable state: the memoised `aiInstance`
(line 3, `GoogleGenAI | null`). -/
structure GenState where
  aiInstance : Option GoogleGenAI
deriving DecidableEq, Repr

/-- `getAiInstance` (lines 9-19): return the memoised client if present;
otherwise read `process.env.API_KEY` (absent = `none`), throw the fixed
configuration error when it is missing or the empty string (`!apiKey`),
and otherwise construct and memoise a client. -/
def getAiInstance (apiKey? : Option String) (st : GenState) :
    Except JsError (GoogleGenAI × GenState) :=
  match st.aiInstance with
  | some ai => Except.ok (ai, st)
  | none =>
    match apiKey? with
    | none => Except.error { message := configErrorMessage }
    | some k =>
      if k == "" then Except.error { message := configErrorMessage }
      else
        let ai : GoogleGenAI := { apiKey := k }
        Except.ok (ai, { aiInstance := some ai })

/-! ## Response shapes -/

/-- Inline binary data on a response part (`inlineData`). -/
structure InlineData where
  data : String
  mimeType : String
deriving DecidableEq, Repr

/-- A heterogeneous response part: optionally a text field, optionally
inline data. -/
structure Part where
  text : Option String := none
  inlineData : Option InlineData := none
deriving DecidableEq, Repr

/-- An input file for the image operations, reduced to what
`fileToGenerativePart` produces from it: its base64 payload and MIME
type (the `FileReader` round-trip is platform I/O, modelled as already
performed). -/
structure JsFile where
  base64Data : String
  mimeType : String
deriving DecidableEq, Repr

/-- `fileToGenerativePart` (lines 60-69): wrap a file's bytes as an
inline-data request part. -/
def fileToGenerativePart (file : JsFile) : Part :=
  { text := none, inlineData := some { data := file.base64Data, mimeType := file.mimeType } }

/-- One generated image in an image-generation response
(`img.image.imageBytes`). -/
structure GenImagePayload where
  imageBytes : String
deriving DecidableEq, Repr

/-- An entry of `response.generatedImages`. -/
structure GeneratedImage where
  image : GenImagePayload
deriving DecidableEq, Repr

/-- The `generateImages` response: the `generatedImages` list may be
absent. -/
structure GenerateImagesResponse where
  generatedImages : Option (List GeneratedImage)
deriving DecidableEq, Repr

/-- A `generateContent` response for the text operations, reduced to its
`text` field. -/
structure GenerateContentResponse where
  text : String
deriving DecidableEq, Repr

/-- The `content` of a response candidate. -/
structure CandidateContent where
  parts : List Part
deriving DecidableEq, Repr

/-- A response candidate. -/
structure Candidate where
  content : CandidateContent
deriving DecidableEq, Repr

/-- A `generateContent` response for `editImage`, which reads
`response.candidates[0].content.parts`. -/
structure EditContentResponse where
  candidates : Option (List Candidate)
deriving DecidableEq, Repr

/-- Result shape of `editImage`. -/
structure EditResult where
  text : Option String
  image : Option String
deriving DecidableEq, Repr

/-- Outcome of one exported operation: the value it resolves with or the
error it rejects with, the module state afterwards, and whether the remote
call was reached. -/
structure OpOutcome (α : Type) where
  result : Except JsError α
  state : GenState
  remoteCalled : Bool

/-- Model of the `TypeError` raised by a property access on
`undefined`/`null` (engine message abbreviated; the classifier only sees
it as a raw non-configuration `Error`). -/
def typeErrorNullAccess : JsError :=
  { message := "Cannot read properties of null" }

/-- Model of the `SyntaxError` raised by `JSON.parse` (the exact message
is engine-specific; the classifier only sees it as a raw `Error`). -/
def jsonParseError : JsError :=
  { message := "Unexpected token in JSON" }

/-! ## Exported operations -/

/-- `generateImage` (lines 71-92): require a client, perform the remote
`generateImages` call, and wrap each returned image's bytes as a
`data:image/jpeg;base64,...` URI; when `generatedImages` is absent or
empty, throw `"No images were generated."`, which the `catch` feeds to
`handleError` with context `"generate image"`. -/
def generateImage (prompt : String) (numberOfImages : Nat)
    (apiKey? : Option String) (st : GenState)
    (remote : Except JsValue GenerateImagesResponse) : OpOutcome (List String) :=
  match getAiInstance apiKey? st with
  | Except.error e =>
    { result := Except.error (catchWith "generate image" (JsValue.jsError e)),
      state := st, remoteCalled := false }
  | Except.ok (_ai, st2) =>
    match remote with
    | Except.error v =>
      { result := Except.error (catchWith "generate image" v),
        state := st2, remoteCalled := true }
    | Except.ok response =>
      match response.generatedImages with
      | some imgs =>
        if imgs.length > 0 then
          { result := Except.ok (imgs.map
              (fun img => "data:image/jpeg;base64," ++ img.image.imageBytes)),
            state := st2, remoteCalled := true }
        else
          { result := Except.error (catchWith "generate image"
              (JsValue.jsError { message := "No images were generated." })),
            state := st2, remoteCalled := true }
      | none =>
        { result := Except.error (catchWith "generate image"
            (JsValue.jsError { message := "No images were generated." })),
          state := st2, remoteCalled := true }

/-- `generateStructuredText` (lines 94-111): require a client, perform the
remote call, trim the response text and `JSON.parse` it; a parse failure
throws inside the `try`, so it reaches `handleError` with context
`"generate structured text"`. -/
def generateStructuredText (prompt : String) (responseSchema : Json)
    (apiKey? : Option String) (st : GenState)
    (remote : Except JsValue GenerateContentResponse) : OpOutcome Json :=
  match getAiInstance apiKey? st with
  | Except.error e =>
    { result := Except.error (catchWith "generate structured text" (JsValue.jsError e)),
      state := st, remoteCalled := false }
  | Except.ok (_ai, st2) =>
    match remote with
    | Except.error v =>
      { result := Except.error (catchWith "generate structured text" v),
        state := st2, remoteCalled := true }
    | Except.ok response =>
      match jsonParse (strTrim response.text) with
      | some j => { result := Except.ok j, state := st2, remoteCalled := true }
      | none =>
        { result := Except.error (catchWith "generate structured text"
            (JsValue.jsError jsonParseError)),
          state := st2, remoteCalled := true }

/-- `generateText` (lines 113-124): require a client, perform the remote
call and return `response.text` as-is (the source applies no `trim`
here). -/
def generateText (prompt : String) (apiKey? : Option String) (st : GenState)
    (remote : Except JsValue GenerateContentResponse) : OpOutcome String :=
  match getAiInstance apiKey? st with
  | Except.error e =>
    { result := Except.error (catchWith "generate text" (JsValue.jsError e)),
      state := st, remoteCalled := false }
  | Except.ok (_ai, st2) =>
    match remote with
    | Except.error v =>
      { result := Except.error (catchWith "generate text" v),
        state := st2, remoteCalled := true }
    | Except.ok response =>
      { result := Except.ok response.text, state := st2, remoteCalled := true }

/-- `generateTextWithImage` (lines 127-157).  The result is a JS union:
a plain string when `isJson` is false, otherwise the parsed JSON value,
or — when the parse fails — the fallback object `\x7b rawResponse: text \x7d`
instead of a raised error. -/
def generateTextWithImage (prompt : String) (image : JsFile) (isJson : Bool)
    (apiKey? : Option String) (st : GenState)
    (remote : Except JsValue GenerateContentResponse) : OpOutcome Json :=
  match getAiInstance apiKey? st with
  | Except.error e =>
    { result := Except.error (catchWith "generate text with image" (JsValue.jsError e)),
      state := st, remoteCalled := false }
  | Except.ok (_ai, st2) =>
    match remote with
    | Except.error v =>
      { result := Except.error (catchWith "generate text with image" v),
        state := st2, remoteCalled := true }
    | Except.ok response =>
      if isJson then
        match jsonParse response.text with
        | some j => { result := Except.ok j, state := st2, remoteCalled := true }
        | none =>
          { result := Except.ok (Json.obj [("rawResponse", Json.str response.text)]),
            state := st2, remoteCalled := true }
      else
        { result := Except.ok (Json.str response.text), state := st2, remoteCalled := true }

/-- The part-scanning loop of `editImage` (lines 175-183), threading the
`resultText`/`resultImage` accumulators.  A part with truthy `text` takes
the first branch (its `inlineData`, if any, is never examined); otherwise
a part with `inlineData` overwrites the image accumulator with a data
URI. -/
def scanParts : List Part → Option String → Option String → Option String × Option String
  | [], t, i => (t, i)
  | p :: rest, t, i =>
    if jsTruthyStr p.text then
      scanParts rest p.text i
    else
      match p.inlineData with
      | some d => scanParts rest t (some ("data:" ++ d.mimeType ++ ";base64," ++ d.data))
      | none => scanParts rest t i

/-- `editImage` (lines 159-194): require a client, perform the remote
call, scan `response.candidates[0].content.parts` with `scanParts`, throw
`"The AI did not return an edited image."` when the image accumulator is
still falsy, and otherwise resolve with the collected text and image. -/
def editImage (prompt : String) (image : JsFile)
    (apiKey? : Option String) (st : GenState)
    (remote : Except JsValue EditContentResponse) : OpOutcome EditResult :=
  match getAiInstance apiKey? st with
  | Except.error e =>
    { result := Except.error (catchWith "edit image" (JsValue.jsError e)),
      state := st, remoteCalled := false }
  | Except.ok (_ai, st2) =>
    match remote with
    | Except.error v =>
      { result := Except.error (catchWith "edit image" v),
        state := st2, remoteCalled := true }
    | Except.ok response =>
      match response.candidates with
      | some (c0 :: _) =>
        let scanned := scanParts c0.content.parts none none
        if jsTruthyStr scanned.2 then
          { result := Except.ok { text := scanned.1, image := scanned.2 },
            state := st2, remoteCalled := true }
        else
          { result := Except.error (catchWith "edit image"
              (JsValue.jsError { message := "The AI did not return an edited image." })),
            state := st2, remoteCalled := true }
      | _ =>
        { result := Except.error (catchWith "edit image" (JsValue.jsError typeErrorNullAccess)),
          state := st2, remoteCalled := true }

/-- The prompt synthesised by `generateColorPalette` (line 204): the
"5 colors" requirement lives only in this prose and in the schema's
description strings. -/
def colorPalettePrompt (theme : String) : String :=
  "Generate a color palette with 5 colors for the theme: " ++ theme ++
  ". Provide creative names for each color."

/-- The schema descriptor passed by `generateColorPalette` (lines 205-222),
kept as data.  Note that it constrains the item shape but places no length
bound on the `palette` array. -/
def colorPaletteSchema : Json :=
  Json.obj
    [("type", Json.str "OBJECT"),
     ("properties", Json.obj
       [("palette", Json.obj
         [("type", Json.str "ARRAY"),
          ("description", Json.str "An array of 5 color objects."),
          ("items", Json.obj
            [("type", Json.str "OBJECT"),
             ("properties", Json.obj
               [("name", Json.obj
                 [("type", Json.str "STRING"),
                  ("description", Json.str "The creative name of the color.")]),
                ("hex", Json.obj
                 [("type", Json.str "STRING"),
                  ("description", Json.str "The hex code for the color (e.g., #RRGGBB).")])]),
             ("required", Json.arr [Json.str "name", Json.str "hex"])])])]),
     ("required", Json.arr [Json.str "palette"])]

/-- `generateColorPalette` (lines 202-232): delegate to
`generateStructuredText`; on its (already classified) failure, re-classify
with context `"generate color palette"`.  On success, return
`result.palette` whenever it is truthy and an array — arrays are always
truthy, so the guard passes exactly when the field holds an array; a
`null` result makes the property access itself throw a `TypeError`; any
other shape throws `"Invalid response format from API."`. -/
def generateColorPalette (theme : String)
    (apiKey? : Option String) (st : GenState)
    (remote : Except JsValue GenerateContentResponse) : OpOutcome Json :=
  let inner := generateStructuredText (colorPalettePrompt theme) colorPaletteSchema apiKey? st remote
  match inner.result with
  | Except.error e =>
    { result := Except.error (catchWith "generate color palette" (JsValue.jsError e)),
      state := inner.state, remoteCalled := inner.remoteCalled }
  | Except.ok result =>
    match result with
    | Json.null =>
      { result := Except.error (catchWith "generate color palette"
          (JsValue.jsError typeErrorNullAccess)),
        state := inner.state, remoteCalled := inner.remoteCalled }
    | Json.obj fs =>
      match lookupLast fs "palette" with
      | some (Json.arr l) =>
        { result := Except.ok (Json.arr l),
          state := inner.state, remoteCalled := inner.remoteCalled }
      | _ =>
        { result := Except.error (catchWith "generate color palette"
            (JsValue.jsError { message := "Invalid response format from API." })),
          state := inner.state, remoteCalled := inner.remoteCalled }
    | _ =>
      { result := Except.error (catchWith "generate color palette"
          (JsValue.jsError { message := "Invalid response format from API." })),
        state := inner.state, remoteCalled := inner.remoteCalled }

/-! ## Claim-side specification definitions -/

/-- Last-write-wins choice on options: keep `a` if set, else `b`. -/
def optOr {α : Type} (a b : Option α) : Option α :=
  match a with
  | some x => some x
  | none => b

/-- The content of the last-seen text part of a part list.  A *text part*
is a part the scan processes in its text branch: one whose `text` field is
truthy (present and non-empty); such a part's `inlineData`, if any, is
never examined. -/
def lastText : List Part → Option String
  | [] => none
  | p :: rest => optOr (lastText rest) (if jsTruthyStr p.text then p.text else none)

/-- The data URI an *inline-data part* contributes: a part the scan
processes in its inline-data branch (no truthy text, inline data
present). -/
def partImageURI (p : Part) : Option String :=
  if jsTruthyStr p.text then none
  else p.inlineData.map (fun d => "data:" ++ d.mimeType ++ ";base64," ++ d.data)

/-- The data URI of the last-seen inline-data part of a part list. -/
def lastImageURI : List Part → Option String
  | [] => none
  | p :: rest => optOr (lastImageURI rest) (partImageURI p)

/-- The `editImage` response holding the given part list in its first
candidate. -/
def editResponseOf (parts : List Part) : EditContentResponse :=
  { candidates := some [{ content := { parts := parts } }] }

/-- The structured condition as the claim words it: the message parses as
a JSON envelope whose `error.details` array *contains an entry* with
`reason` equal to `API_KEY_INVALID` (a plain existential over the
entries). -/
def structuredDetailsCondition (msg : String) : Bool :=
  match jsonParse msg with
  | none => false
  | some parsed =>
    match optChainField (optChainField (some parsed) "error") "details" with
    | some (Json.arr ds) =>
      ds.any (fun d =>
        match d with
        | Json.obj fs =>
          match lookupLast fs "reason" with
          | some (Json.str r) => r == "API_KEY_INVALID"
          | _ => false
        | _ => false)
    | _ => false

/-- The full key-error condition as the claim words it: one of the two
substrings, or the existential structured condition. -/
def claimKeyCondition (msg : String) : Bool :=
  strIncludes msg "API key not valid" || strIncludes msg "API_KEY_INVALID" ||
    structuredDetailsCondition msg

/-- The structured condition as the code actually evaluates it: the
in-order scan of `error.details`, which a `null` entry aborts (the thrown
`TypeError` is swallowed, ending the probe negatively). -/
def scannedDetailsCondition (msg : String) : Bool :=
  match jsonParse msg with
  | none => false
  | some parsed =>
    match optChainField (optChainField (some parsed) "error") "details" with
    | some (Json.arr ds) =>
      match detailsScan ds with
      | Except.ok b => b
      | Except.error _ => false
    | _ => false

/-- The full key-error condition as the code evaluates it: substrings
first, otherwise the scanned structured condition. -/
def scannedKeyCondition (msg : String) : Bool :=
  strIncludes msg "API key not valid" || strIncludes msg "API_KEY_INVALID" ||
    scannedDetailsCondition msg

/-- A message whose JSON form puts a `null` entry before an entry whose
`reason` decodes (through the `D` escape) to the sentinel — the raw
text contains neither key-error substring. -/
def escapedNullDetailsMessage : String :=
  "\x7b\"error\":\x7b\"details\":[null,\x7b\"reason\":\"API_KEY_INVALI\\u0044\"\x7d]\x7d\x7d"

/-- A message whose single `error.details` entry has `reason` decoding
(through the `D` escape) to the sentinel while the raw text contains
neither key-error substring. -/
def escapedDetailsMessage : String :=
  "\x7b\"error\":\x7b\"details\":[\x7b\"reason\":\"API_KEY_INVALI\\u0044\"\x7d]\x7d\x7d"

/-! ## Helper lemmas -/

theorem strData_append (s t : String) : (s ++ t).data = s.data ++ t.data := rfl

/-- A `GenericFailure` message never coincides with the configuration
message: the former starts with `F`, the latter with `E`. -/
theorem failed_ne_config (ctx m : String) :
    ("Failed to " ++ ctx ++ ". " ++ m) ≠ configErrorMessage := by
  intro h
  have h1 : some 'F' = some 'E' := by
    calc some 'F' = ("Failed to " ++ ctx ++ ". " ++ m).data.head? := rfl
    _ = configErrorMessage.data.head? := by rw [h]
    _ = some 'E' := rfl
  exact absurd h1 (by decide)

/-- An `UnknownFailure` message never coincides with the configuration
message: the former starts with `A`, the latter with `E`. -/
theorem unknown_ne_config (ctx : String) :
    ("An unknown error occurred while trying to " ++ ctx ++ ".") ≠ configErrorMessage := by
  intro h
  have h1 : some 'A' = some 'E' := by
    calc some 'A' = ("An unknown error occurred while trying to " ++ ctx ++ ".").data.head? := rfl
    _ = configErrorMessage.data.head? := by rw [h]
    _ = some 'E' := rfl
  exact absurd h1 (by decide)

/-- The code's `isApiKeyError` computation coincides with its `||`-shaped
restatement. -/
theorem isApiKeyErrorOf_eq_scanned (msg : String) :
    isApiKeyErrorOf msg = scannedKeyCondition msg := by
  unfold isApiKeyErrorOf scannedKeyCondition scannedDetailsCondition
  cases h : (strIncludes msg "API key not valid" || strIncludes msg "API_KEY_INVALID") <;> simp [h]

/-- The substring-only condition implies the full condition. -/
theorem isApiKeyErrorOf_of_noProbe (msg : String)
    (h : isApiKeyErrorNoProbe msg = true) : isApiKeyErrorOf msg = true := by
  unfold isApiKeyErrorNoProbe at h
  unfold isApiKeyErrorOf
  simp [h]

theorem optOr_none {α : Type} (a : Option α) : optOr a none = a := by
  cases a <;> rfl

theorem optOr_some_left {α : Type} (x : α) (b : Option α) : optOr (some x) b = some x := rfl

theorem optOr_none_left {α : Type} (b : Option α) : optOr none b = b := rfl

theorem optOr_assoc {α : Type} (a b c : Option α) :
    optOr (optOr a b) c = optOr a (optOr b c) := by
  cases a <;> rfl

/-- A truthy `string | null | undefined` value is a present, non-empty
string. -/
theorem jsTruthyStr_some {o : Option String} (h : jsTruthyStr o = true) :
    ∃ s, o = some s ∧ s ≠ "" := by
  cases o with
  | none => simp [jsTruthyStr] at h
  | some s =>
    refine ⟨s, rfl, ?_⟩
    simp [jsTruthyStr] at h
    exact h

/-- The scan loop computes exactly the last-write-wins summary of the part
list, merged over the accumulators. -/
theorem scanParts_eq (parts : List Part) : ∀ t i,
    scanParts parts t i = (optOr (lastText parts) t, optOr (lastImageURI parts) i) := by
  induction parts with
  | nil => intro t i; rfl
  | cons p rest ih =>
    intro t i
    cases h : jsTruthyStr p.text with
    | true =>
      obtain ⟨s, hs, hne⟩ := jsTruthyStr_some h
      rw [hs] at h
      simp [scanParts, lastText, lastImageURI, partImageURI, hs, h, ih,
        optOr_assoc, optOr_some_left, optOr_none, optOr_none_left]
    | false =>
      cases hd : p.inlineData with
      | none =>
        simp [scanParts, lastText, lastImageURI, partImageURI, h, hd, ih,
          optOr_assoc, optOr_none, optOr_none_left]
      | some d =>
        simp [scanParts, lastText, lastImageURI, partImageURI, h, hd, ih,
          optOr_assoc, optOr_some_left, optOr_none, optOr_none_left]

/-- Any URI collected by the scan is non-empty (it starts with `data:`). -/
theorem lastImageURI_ne_empty (parts : List Part) : ∀ uri,
    lastImageURI parts = some uri → uri ≠ "" := by
  induction parts with
  | nil => intro uri h; simp [lastImageURI] at h
  | cons p rest ih =>
    intro uri h
    unfold lastImageURI at h
    cases hr : lastImageURI rest with
    | some u =>
      rw [hr, optOr_some_left] at h
      have h2 := Option.some.inj h
      exact h2 ▸ ih u hr
    | none =>
      rw [hr, optOr_none_left] at h
      unfold partImageURI at h
      by_cases ht : jsTruthyStr p.text = true
      · rw [if_pos ht] at h
        exact absurd h (by simp)
      · rw [if_neg ht] at h
        cases hd : p.inlineData with
        | none =>
          rw [hd] at h
          exact absurd h (by simp)
        | some d =>
          rw [hd] at h
          rw [show Option.map (fun d => "data:" ++ d.mimeType ++ ";base64," ++ d.data) (some d) =
                some ("data:" ++ d.mimeType ++ ";base64," ++ d.data) from rfl] at h
          have h2 := Option.some.inj h
          intro he
          have h1 : some 'd' = (none : Option Char) := by
            calc some 'd'
                = ("data:" ++ d.mimeType ++ ";base64," ++ d.data).data.head? := rfl
            _ = (uri : String).data.head? := by rw [h2]
            _ = ("" : String).data.head? := by rw [he]
            _ = none := rfl
          exact absurd h1 (by decide)

/-- Evaluation of `editImage` on a well-formed single-candidate response,
with the client already memoised: the result is determined by the
last-write-wins summaries of the part list. -/
theorem editImage_eval (prompt : String) (image : JsFile) (apiKey? : Option String)
    (ai : GoogleGenAI) (parts : List Part) :
    (editImage prompt image apiKey? { aiInstance := some ai }
        (Except.ok (editResponseOf parts))).result =
      (if jsTruthyStr (lastImageURI parts) then
        Except.ok { text := lastText parts, image := lastImageURI parts }
      else
        Except.error { message := "Failed to edit image. The AI did not return an edited image." }) := by
  show (let scanned := scanParts parts none none
        if jsTruthyStr scanned.2 then
          ({ result := Except.ok { text := scanned.1, image := scanned.2 },
             state := { aiInstance := some ai }, remoteCalled := true } : OpOutcome EditResult)
        else
          { result := Except.error (catchWith "edit image"
              (JsValue.jsError { message := "The AI did not return an edited image." })),
            state := { aiInstance := some ai }, remoteCalled := true }).result = _
  rw [scanParts_eq parts none none]
  simp only [optOr_none]
  cases h : jsTruthyStr (lastImageURI parts) with
  | true => simp [h]
  | false =>
    simp only [h, if_false, Bool.false_eq_true]
    rfl

/-! ## Claims -/

/-- **C8**: the error classifier is an idempotent passthrough on
`ConfigurationError`: an `Error` whose message starts with the fixed
prefix is re-raised identically (never wrapped); moreover `handleError`
never returns normally — on every input it raises. -/
theorem claim_C8 :
    (∀ (e : JsError) (ctx : String),
      strStartsWith e.message "Error de Configuración" = true →
      handleError (JsValue.jsError e) ctx = some e) ∧
    (∀ (v : JsValue) (ctx : String), (handleError v ctx).isSome = true) := by
  constructor
  · intro e ctx h
    simp [handleError, h]
  · intro v ctx
    cases v with
    | other => rfl
    | jsError e =>
      unfold handleError
      by_cases h1 : strStartsWith e.message "Error de Configuración" = true
      · simp [h1]
      · by_cases h2 : isApiKeyErrorOf e.message = true
        · simp [h1, h2]
        · simp [h1, h2]

/-- Witness for C8: the configuration error itself passes through
unchanged, and a non-`Error` value still makes the classifier raise. -/
theorem claim_C8_witness :
    handleError (JsValue.jsError { message := configErrorMessage }) "generate image" =
      some { message := configErrorMessage } ∧
    (handleError JsValue.other "generate text").isSome = true :=
  ⟨claim_C8.1 { message := configErrorMessage } "generate image" (by decide),
   claim_C8.2 JsValue.other "generate text"⟩

/-- **C2**: with no memoised client and an absent or empty credential,
every exported operation rejects with the `ConfigurationError` carrying
the fixed localized message, constructs no client handle (the state is
unchanged), and never reaches the remote call. -/
theorem claim_C2 (apiKey? : Option String)
    (h : apiKey? = none ∨ apiKey? = some "") :
    (∀ prompt n remote, generateImage prompt n apiKey? { aiInstance := none } remote =
      { result := Except.error { message := configErrorMessage },
        state := { aiInstance := none }, remoteCalled := false }) ∧
    (∀ prompt sch remote, generateStructuredText prompt sch apiKey? { aiInstance := none } remote =
      { result := Except.error { message := configErrorMessage },
        state := { aiInstance := none }, remoteCalled := false }) ∧
    (∀ prompt remote, generateText prompt apiKey? { aiInstance := none } remote =
      { result := Except.error { message := configErrorMessage },
        state := { aiInstance := none }, remoteCalled := false }) ∧
    (∀ prompt image isJson remote,
      generateTextWithImage prompt image isJson apiKey? { aiInstance := none } remote =
      { result := Except.error { message := configErrorMessage },
        state := { aiInstance := none }, remoteCalled := false }) ∧
    (∀ prompt image remote, editImage prompt image apiKey? { aiInstance := none } remote =
      { result := Except.error { message := configErrorMessage },
        state := { aiInstance := none }, remoteCalled := false }) ∧
    (∀ theme remote, generateColorPalette theme apiKey? { aiInstance := none } remote =
      { result := Except.error { message := configErrorMessage },
        state := { aiInstance := none }, remoteCalled := false }) := by
  rcases h with rfl | rfl <;>
    exact ⟨fun _ _ _ => rfl, fun _ _ _ => rfl, fun _ _ => rfl, fun _ _ _ _ => rfl,
      fun _ _ _ => rfl, fun _ _ => rfl⟩

/-- Witness for C2: the empty-string credential at a concrete call. -/
theorem claim_C2_witness :
    generateText "hello" (some "") { aiInstance := none }
        (Except.ok { text := "ignored" }) =
      { result := Except.error { message := configErrorMessage },
        state := { aiInstance := none }, remoteCalled := false } :=
  (claim_C2 (some "") (Or.inr rfl)).2.2.1 "hello" (Except.ok { text := "ignored" })

/-- **C3**: for every `editImage` response part list, the unwrapped
result's text is the content of the last-seen text part (or `null` when no
text part appears) and its image is the last-seen inline-data part wrapped
as a data URI, later same-typed parts overwriting earlier ones; when no
inline-data part is found after scanning all parts, `editImage` rejects
with the `GenericFailure` whose message indicates no edited image was
produced.  (A part is a text part when its `text` is truthy; an
inline-data part is one the scan reads inline data from, i.e. without
truthy text — cf. C10 for the precedence.) -/
theorem claim_C3 (prompt : String) (image : JsFile) (apiKey? : Option String)
    (ai : GoogleGenAI) (parts : List Part) :
    (∀ uri, lastImageURI parts = some uri →
      (editImage prompt image apiKey? { aiInstance := some ai }
          (Except.ok (editResponseOf parts))).result =
        Except.ok { text := lastText parts, image := some uri }) ∧
    (lastImageURI parts = none →
      (editImage prompt image apiKey? { aiInstance := some ai }
          (Except.ok (editResponseOf parts))).result =
        Except.error { message := "Failed to edit image. The AI did not return an edited image." }) := by
  constructor
  · intro uri hu
    have hne := lastImageURI_ne_empty parts uri hu
    have ht : jsTruthyStr (lastImageURI parts) = true := by
      rw [hu]
      simp [jsTruthyStr, hne]
    rw [editImage_eval, if_pos ht, hu]
  · intro hu
    have ht : jsTruthyStr (lastImageURI parts) = true → False := by
      rw [hu]; simp [jsTruthyStr]
    rw [editImage_eval, if_neg ht]

/-- Witness for C3, at the spec's P6 input `[textA, imageA, textB,
imageB]`: text is textB, image is imageB; and a pure-text part list hits
the no-image failure. -/
theorem claim_C3_witness :
    (editImage "edit" { base64Data := "Q0FU", mimeType := "image/png" } (some "key")
        { aiInstance := some { apiKey := "key" } }
        (Except.ok (editResponseOf
          [{ text := some "textA" },
           { inlineData := some { data := "AAAA", mimeType := "image/png" } },
           { text := some "textB" },
           { inlineData := some { data := "BBBB", mimeType := "image/jpeg" } }]))).result =
      Except.ok { text := some "textB", image := some "data:image/jpeg;base64,BBBB" } ∧
    (editImage "edit" { base64Data := "Q0FU", mimeType := "image/png" } (some "key")
        { aiInstance := some { apiKey := "key" } }
        (Except.ok (editResponseOf [{ text := some "only text" }]))).result =
      Except.error { message := "Failed to edit image. The AI did not return an edited image." } :=
  ⟨(claim_C3 "edit" { base64Data := "Q0FU", mimeType := "image/png" } (some "key")
      { apiKey := "key" }
      [{ text := some "textA" },
       { inlineData := some { data := "AAAA", mimeType := "image/png" } },
       { text := some "textB" },
       { inlineData := some { data := "BBBB", mimeType := "image/jpeg" } }]).1
      "data:image/jpeg;base64,BBBB" rfl,
   (claim_C3 "edit" { base64Data := "Q0FU", mimeType := "image/png" } (some "key")
      { apiKey := "key" } [{ text := some "only text" }]).2 rfl⟩

/-- Helper for C10: when every part carrying inline data also has truthy
text, the scan collects no image. -/
theorem lastImageURI_none_of_text (parts : List Part)
    (h : ∀ p ∈ parts, p.inlineData.isSome = true → jsTruthyStr p.text = true) :
    lastImageURI parts = none := by
  induction parts with
  | nil => rfl
  | cons p rest ih =>
    have hrest : lastImageURI rest = none :=
      ih (fun q hq => h q (List.mem_cons_of_mem p hq))
    unfold lastImageURI
    rw [hrest, optOr_none_left]
    unfold partImageURI
    by_cases ht : jsTruthyStr p.text = true
    · rw [if_pos ht]
    · rw [if_neg ht]
      cases hd : p.inlineData with
      | none => rfl
      | some d =>
        exact absurd (h p (List.mem_cons_self p rest) (by rw [hd]; rfl)) ht

/-- **C10**: in the `editImage` part scan, a part carrying both text and
inline data contributes only its text — the text branch takes precedence,
so such a part never sets or overwrites the image accumulator; hence a
response whose only image bytes arrive on parts that also carry text
rejects with the no-edited-image `GenericFailure`. -/
theorem claim_C10 :
    (∀ (p : Part) (rest : List Part) (t i : Option String),
      jsTruthyStr p.text = true → scanParts (p :: rest) t i = scanParts rest p.text i) ∧
    (∀ (prompt : String) (image : JsFile) (apiKey? : Option String) (ai : GoogleGenAI)
        (parts : List Part),
      (∀ p ∈ parts, p.inlineData.isSome = true → jsTruthyStr p.text = true) →
      (editImage prompt image apiKey? { aiInstance := some ai }
          (Except.ok (editResponseOf parts))).result =
        Except.error { message := "Failed to edit image. The AI did not return an edited image." }) := by
  constructor
  · intro p rest t i h
    simp [scanParts, h]
  · intro prompt image apiKey? ai parts h
    have hu := lastImageURI_none_of_text parts h
    have ht : jsTruthyStr (lastImageURI parts) = true → False := by
      rw [hu]; simp [jsTruthyStr]
    rw [editImage_eval, if_neg ht]

/-- Witness for C10: a part carrying both text and inline data leaves the
image accumulator untouched, and a response whose only image bytes ride on
such a part fails with the no-edited-image error. -/
theorem claim_C10_witness :
    scanParts [{ text := some "t", inlineData := some { data := "XXXX", mimeType := "image/png" } }]
        none none =
      scanParts [] (some "t") none ∧
    (editImage "edit" { base64Data := "Q0FU", mimeType := "image/png" } (some "key")
        { aiInstance := some { apiKey := "key" } }
        (Except.ok (editResponseOf
          [{ text := some "t", inlineData := some { data := "XXXX", mimeType := "image/png" } }]))).result =
      Except.error { message := "Failed to edit image. The AI did not return an edited image." } :=
  ⟨claim_C10.1 { text := some "t", inlineData := some { data := "XXXX", mimeType := "image/png" } }
      [] none none rfl,
   claim_C10.2 "edit" { base64Data := "Q0FU", mimeType := "image/png" } (some "key")
      { apiKey := "key" }
      [{ text := some "t", inlineData := some { data := "XXXX", mimeType := "image/png" } }]
      (by decide)⟩

/-- **C7**: `generateImage` on a response with no image list or an empty
one rejects with the `GenericFailure` stating that no images were
generated; on a non-empty list it resolves with one
`data:image/jpeg;base64,...` URI per generated image. -/
theorem claim_C7 (prompt : String) (n : Nat) (apiKey? : Option String)
    (ai : GoogleGenAI) (imgs? : Option (List GeneratedImage)) :
    ((imgs? = none ∨ imgs? = some []) →
      (generateImage prompt n apiKey? { aiInstance := some ai }
          (Except.ok { generatedImages := imgs? })).result =
        Except.error { message := "Failed to generate image. No images were generated." }) ∧
    (∀ l, imgs? = some l → 0 < l.length →
      (generateImage prompt n apiKey? { aiInstance := some ai }
          (Except.ok { generatedImages := imgs? })).result =
        Except.ok (l.map (fun img => "data:image/jpeg;base64," ++ img.image.imageBytes))) := by
  constructor
  · intro h
    rcases h with rfl | rfl
    · rfl
    · rfl
  · intro l hl hpos
    subst hl
    simp [generateImage, getAiInstance, hpos]

/-- Witness for C7: an absent image list fails with the fixed message; a
one-image response resolves with its single data URI. -/
theorem claim_C7_witness :
    (generateImage "a cat" 1 (some "key") { aiInstance := some { apiKey := "key" } }
        (Except.ok { generatedImages := none })).result =
      Except.error { message := "Failed to generate image. No images were generated." } ∧
    (generateImage "a cat" 1 (some "key") { aiInstance := some { apiKey := "key" } }
        (Except.ok { generatedImages := some [{ image := { imageBytes := "Qk9C" } }] })).result =
      Except.ok ["data:image/jpeg;base64,Qk9C"] :=
  ⟨(claim_C7 "a cat" 1 (some "key") { apiKey := "key" } none).1 (Or.inl rfl),
   (claim_C7 "a cat" 1 (some "key") { apiKey := "key" }
      (some [{ image := { imageBytes := "Qk9C" } }])).2
      [{ image := { imageBytes := "Qk9C" } }] rfl (by decide)⟩

/-- **C6**: `generateTextWithImage` with `isJson = true` never rejects on
an unparseable response text: it resolves with the fallback object
carrying the raw text under `rawResponse`; when the text parses, it
resolves with the parsed JSON value. -/
theorem claim_C6 (prompt : String) (image : JsFile) (apiKey? : Option String)
    (ai : GoogleGenAI) (t : String) :
    (jsonParse t = none →
      (generateTextWithImage prompt image true apiKey? { aiInstance := some ai }
          (Except.ok { text := t })).result =
        Except.ok (Json.obj [("rawResponse", Json.str t)])) ∧
    (∀ j, jsonParse t = some j →
      (generateTextWithImage prompt image true apiKey? { aiInstance := some ai }
          (Except.ok { text := t })).result = Except.ok j) := by
  constructor
  · intro h
    simp [generateTextWithImage, getAiInstance, h]
  · intro j h
    simp [generateTextWithImage, getAiInstance, h]

/-- Witness for C6: a non-JSON text yields the `rawResponse` fallback; a
JSON text yields the parsed value. -/
theorem claim_C6_witness :
    (generateTextWithImage "describe" { base64Data := "Q0FU", mimeType := "image/png" } true
        (some "key") { aiInstance := some { apiKey := "key" } }
        (Except.ok { text := "plain prose" })).result =
      Except.ok (Json.obj [("rawResponse", Json.str "plain prose")]) ∧
    (generateTextWithImage "describe" { base64Data := "Q0FU", mimeType := "image/png" } true
        (some "key") { aiInstance := some { apiKey := "key" } }
        (Except.ok { text := "[true]" })).result =
      Except.ok (Json.arr [Json.bool true]) :=
  ⟨(claim_C6 "describe" { base64Data := "Q0FU", mimeType := "image/png" } (some "key")
      { apiKey := "key" } "plain prose").1 rfl,
   (claim_C6 "describe" { base64Data := "Q0FU", mimeType := "image/png" } (some "key")
      { apiKey := "key" } "[true]").2 (Json.arr [Json.bool true]) rfl⟩

/-- Counterexample to **C5**: `generateText` does *not* trim the
response's text — the source returns `response.text` as-is (line 120),
while the claim says both operations return it trimmed.  On the response
text `" hi "` the operation resolves with `" hi "`, not with its trim
`"hi"`. -/
theorem claim_C5_counterexample :
    (generateText "greet" (some "key") { aiInstance := some { apiKey := "key" } }
        (Except.ok { text := " hi " })).result = Except.ok " hi " ∧
    strTrim " hi " = "hi" ∧ (" hi " : String) ≠ "hi" :=
  ⟨rfl, rfl, by decide⟩

/-- **C5 (amended)**: `generateText` returns the response's primary text
field as-is (untrimmed), while `generateStructuredText` trims it and
parses the trimmed text as JSON, a parse failure propagating as a raw
failure into the error classifier (surfacing as the classified
`GenericFailure` for context "generate structured text"). -/
theorem claim_C5_amended (prompt : String) (sch : Json) (apiKey? : Option String)
    (ai : GoogleGenAI) (t : String) :
    (generateText prompt apiKey? { aiInstance := some ai }
        (Except.ok { text := t })).result = Except.ok t ∧
    (∀ j, jsonParse (strTrim t) = some j →
      (generateStructuredText prompt sch apiKey? { aiInstance := some ai }
          (Except.ok { text := t })).result = Except.ok j) ∧
    (jsonParse (strTrim t) = none →
      (generateStructuredText prompt sch apiKey? { aiInstance := some ai }
          (Except.ok { text := t })).result =
        Except.error (catchWith "generate structured text" (JsValue.jsError jsonParseError))) := by
  refine ⟨rfl, ?_, ?_⟩
  · intro j h
    simp [generateStructuredText, getAiInstance, h]
  · intro h
    simp [generateStructuredText, getAiInstance, h]

/-- Witness for C5 (amended): an untrimmed plain text comes back as-is, a
JSON object in surrounding whitespace parses after trimming, and a
non-JSON text rejects through the classifier. -/
theorem claim_C5_amended_witness :
    (generateText "greet" (some "key") { aiInstance := some { apiKey := "key" } }
        (Except.ok { text := " hi " })).result = Except.ok " hi " ∧
    (generateStructuredText "greet" Json.null (some "key")
        { aiInstance := some { apiKey := "key" } }
        (Except.ok { text := " \x7b\x7d " })).result = Except.ok (Json.obj []) ∧
    (generateStructuredText "greet" Json.null (some "key")
        { aiInstance := some { apiKey := "key" } }
        (Except.ok { text := "oops" })).result =
      Except.error { message := "Failed to generate structured text. Unexpected token in JSON" } :=
  ⟨(claim_C5_amended "greet" Json.null (some "key") { apiKey := "key" } " hi ").1,
   (claim_C5_amended "greet" Json.null (some "key") { apiKey := "key" } " \x7b\x7d ").2.1
      (Json.obj []) rfl,
   (claim_C5_amended "greet" Json.null (some "key") { apiKey := "key" } "oops").2.2 rfl⟩

/-- Counterexample to **C4**: `generateColorPalette` resolves successfully
with however many entries the remote returned — nothing enforces the count
of 5.  A response whose `palette` holds 3 entries resolves with exactly
those 3 entries. -/
theorem claim_C4_counterexample :
    (generateColorPalette "sunset" (some "key") { aiInstance := none }
        (Except.ok { text := "\x7b\"palette\":[\x7b\"name\":\"a\",\"hex\":\"#111111\"\x7d,\x7b\"name\":\"b\",\"hex\":\"#222222\"\x7d,\x7b\"name\":\"c\",\"hex\":\"#333333\"\x7d]\x7d" })).result =
      Except.ok (Json.arr
        [Json.obj [("name", Json.str "a"), ("hex", Json.str "#111111")],
         Json.obj [("name", Json.str "b"), ("hex", Json.str "#222222")],
         Json.obj [("name", Json.str "c"), ("hex", Json.str "#333333")]]) ∧
    ([Json.obj [("name", Json.str "a"), ("hex", Json.str "#111111")],
      Json.obj [("name", Json.str "b"), ("hex", Json.str "#222222")],
      Json.obj [("name", Json.str "c"), ("hex", Json.str "#333333")]] : List Json).length = 3 ∧
    (3 : Nat) ≠ 5 :=
  ⟨rfl, rfl, by decide⟩

/-- **C4 (amended)**: on success `generateColorPalette` returns the
`palette` array of the structured response unmodified — the prompt and the
schema description ask for 5 entries, but the operation resolves with
whatever count the remote produced. -/
theorem claim_C4_amended (theme : String) (apiKey? : Option String) (ai : GoogleGenAI)
    (t : String) (fs : List (String × Json)) (l : List Json)
    (hparse : jsonParse (strTrim t) = some (Json.obj fs))
    (hpal : lookupLast fs "palette" = some (Json.arr l)) :
    (generateColorPalette theme apiKey? { aiInstance := some ai }
        (Except.ok { text := t })).result = Except.ok (Json.arr l) := by
  simp [generateColorPalette, generateStructuredText, getAiInstance, hparse, hpal]

/-- Witness for C4 (amended): a well-formed 5-entry palette comes back
as those exact 5 entries. -/
theorem claim_C4_amended_witness :
    (generateColorPalette "sunset" (some "key") { aiInstance := some { apiKey := "key" } }
        (Except.ok { text := "\x7b\"palette\":[\x7b\"name\":\"a\",\"hex\":\"#101010\"\x7d,\x7b\"name\":\"b\",\"hex\":\"#202020\"\x7d,\x7b\"name\":\"c\",\"hex\":\"#303030\"\x7d,\x7b\"name\":\"d\",\"hex\":\"#404040\"\x7d,\x7b\"name\":\"e\",\"hex\":\"#505050\"\x7d]\x7d" })).result =
      Except.ok (Json.arr
        [Json.obj [("name", Json.str "a"), ("hex", Json.str "#101010")],
         Json.obj [("name", Json.str "b"), ("hex", Json.str "#202020")],
         Json.obj [("name", Json.str "c"), ("hex", Json.str "#303030")],
         Json.obj [("name", Json.str "d"), ("hex", Json.str "#404040")],
         Json.obj [("name", Json.str "e"), ("hex", Json.str "#505050")]]) :=
  claim_C4_amended "sunset" (some "key") { apiKey := "key" }
    "\x7b\"palette\":[\x7b\"name\":\"a\",\"hex\":\"#101010\"\x7d,\x7b\"name\":\"b\",\"hex\":\"#202020\"\x7d,\x7b\"name\":\"c\",\"hex\":\"#303030\"\x7d,\x7b\"name\":\"d\",\"hex\":\"#404040\"\x7d,\x7b\"name\":\"e\",\"hex\":\"#505050\"\x7d]\x7d"
    [("palette", Json.arr
      [Json.obj [("name", Json.str "a"), ("hex", Json.str "#101010")],
       Json.obj [("name", Json.str "b"), ("hex", Json.str "#202020")],
       Json.obj [("name", Json.str "c"), ("hex", Json.str "#303030")],
       Json.obj [("name", Json.str "d"), ("hex", Json.str "#404040")],
       Json.obj [("name", Json.str "e"), ("hex", Json.str "#505050")]])]
    [Json.obj [("name", Json.str "a"), ("hex", Json.str "#101010")],
     Json.obj [("name", Json.str "b"), ("hex", Json.str "#202020")],
     Json.obj [("name", Json.str "c"), ("hex", Json.str "#303030")],
     Json.obj [("name", Json.str "d"), ("hex", Json.str "#404040")],
     Json.obj [("name", Json.str "e"), ("hex", Json.str "#505050")]]
    rfl rfl

/-- Counterexample to **C1**: the claimed "if and only if" fails.  On the
message `\x7b"error":\x7b"details":[null,\x7b"reason":"API_KEY_INVALID"\x7d]\x7d\x7d`
(not a configuration error, neither substring present because the final
`D` of the sentinel is JSON-escaped) the claim's structured condition
holds — the parsed `error.details` array *contains* an entry with
`reason = API_KEY_INVALID` — yet `handleError` raises the
`GenericFailure`: the in-order `details.some(...)` scan first touches the
`null` entry, `null.reason` throws a `TypeError`, and the enclosing
`catch` swallows it, ending the probe negatively. -/
theorem claim_C1_counterexample :
    strStartsWith escapedNullDetailsMessage "Error de Configuración" = false ∧
    claimKeyCondition escapedNullDetailsMessage = true ∧
    handleError (JsValue.jsError { message := escapedNullDetailsMessage }) "generate text" =
      some { message := "Failed to generate text. " ++ escapedNullDetailsMessage } ∧
    ({ message := "Failed to generate text. " ++ escapedNullDetailsMessage } : JsError) ≠
      { message := configErrorMessage } :=
  ⟨rfl, rfl, rfl, by decide⟩

/-- **C1 (amended)**: for a caught `Error` that is not a
`ConfigurationError`, `handleError` raises the `ConfigurationError` with
the fixed localized message if and only if the message contains one of
the two known invalid-key phrases, or the message parses as a JSON
envelope whose `error.details` in-order scan reaches an entry with
`reason = API_KEY_INVALID` before reaching a `null` entry (property
access on a `null` entry throws, and that throw — like a JSON-parse
failure — is swallowed silently, ending the probe negatively); in every
other case it raises the `GenericFailure` wrapping the operation's
context label and the original message. -/
theorem claim_C1_amended (msg ctx : String)
    (h : strStartsWith msg "Error de Configuración" = false) :
    (handleError (JsValue.jsError { message := msg }) ctx =
        some { message := configErrorMessage } ↔ scannedKeyCondition msg = true) ∧
    (scannedKeyCondition msg = false →
      handleError (JsValue.jsError { message := msg }) ctx =
        some { message := "Failed to " ++ ctx ++ ". " ++ msg }) := by
  have hk := isApiKeyErrorOf_eq_scanned msg
  constructor
  · constructor
    · intro he
      cases hc : scannedKeyCondition msg with
      | true => rfl
      | false =>
        rw [show handleError (JsValue.jsError { message := msg }) ctx =
              some { message := "Failed to " ++ ctx ++ ". " ++ msg } by
            simp [handleError, h, hk, hc]] at he
        have h2 := Option.some.inj he
        have h3 : ("Failed to " ++ ctx ++ ". " ++ msg) = configErrorMessage :=
          congrArg JsError.message h2
        exact absurd h3 (failed_ne_config ctx msg)
    · intro hc
      simp [handleError, h, hk, hc]
  · intro hc
    simp [handleError, h, hk, hc]

/-- Witness for C1 (amended): a message containing the phrase
`API key not valid` classifies as the configuration error. -/
theorem claim_C1_amended_witness :
    handleError (JsValue.jsError { message := "API key not valid. Please pass a valid API key." })
        "generate image" = some { message := configErrorMessage } :=
  ((claim_C1_amended "API key not valid. Please pass a valid API key." "generate image"
      (by decide)).1).mpr (by decide)

/-- Counterexample to **C9**: the structured-JSON probe is *not*
behaviourally redundant.  On the message
`\x7b"error":\x7b"details":[\x7b"reason":"API_KEY_INVALID"\x7d]\x7d\x7d` the parsed
`error.details` contains an entry whose `reason` is the sentinel, yet the
raw text does not contain the substring `API_KEY_INVALID` (its final `D`
is JSON-escaped), and the classifier with the probe removed generically
wraps a message the full classifier maps to the configuration error. -/
theorem claim_C9_counterexample :
    structuredDetailsCondition escapedDetailsMessage = true ∧
    strIncludes escapedDetailsMessage "API_KEY_INVALID" = false ∧
    handleError (JsValue.jsError { message := escapedDetailsMessage }) "generate text" =
      some { message := configErrorMessage } ∧
    handleErrorNoProbe (JsValue.jsError { message := escapedDetailsMessage }) "generate text" =
      some { message := "Failed to generate text. " ++ escapedDetailsMessage } ∧
    handleError (JsValue.jsError { message := escapedDetailsMessage }) "generate text" ≠
      handleErrorNoProbe (JsValue.jsError { message := escapedDetailsMessage }) "generate text" :=
  ⟨rfl, rfl, rfl, rfl, by decide⟩

/-- **C9 (amended)**: removing the structured-JSON probe is a sound but
incomplete simplification: every input the probe-less classifier maps to
the `ConfigurationError` is mapped there by the full classifier as well,
and on every input the two either agree or the full classifier upgrades
the outcome to the `ConfigurationError`; they are not extensionally equal
(the probe alone detects messages whose sentinel hides behind JSON
escapes). -/
theorem claim_C9_amended (v : JsValue) (ctx : String) :
    (handleErrorNoProbe v ctx = some { message := configErrorMessage } →
      handleError v ctx = some { message := configErrorMessage }) ∧
    (handleError v ctx = handleErrorNoProbe v ctx ∨
      handleError v ctx = some { message := configErrorMessage }) := by
  cases v with
  | other =>
    constructor
    · intro h
      have h2 : ("An unknown error occurred while trying to " ++ ctx ++ ".") = configErrorMessage :=
        congrArg JsError.message (Option.some.inj h)
      exact absurd h2 (unknown_ne_config ctx)
    · exact Or.inl rfl
  | jsError e =>
    by_cases h1 : strStartsWith e.message "Error de Configuración" = true
    · constructor
      · intro h
        rw [show handleErrorNoProbe (JsValue.jsError e) ctx = some e by
              simp [handleErrorNoProbe, h1]] at h
        simp [handleError, h1, h]
      · left
        simp [handleError, handleErrorNoProbe, h1]
    · by_cases h2 : isApiKeyErrorNoProbe e.message = true
      · have h3 := isApiKeyErrorOf_of_noProbe e.message h2
        constructor
        · intro h
          simp [handleError, h1, h3]
        · left
          simp [handleError, handleErrorNoProbe, h1, h2, h3]
      · by_cases h4 : isApiKeyErrorOf e.message = true
        · constructor
          · intro h
            simp [handleError, h1, h4]
          · right
            simp [handleError, h1, h4]
        · constructor
          · intro h
            rw [show handleErrorNoProbe (JsValue.jsError e) ctx =
                  some { message := "Failed to " ++ ctx ++ ". " ++ e.message } by
                simp [handleErrorNoProbe, h1, h2]] at h
            have h5 : ("Failed to " ++ ctx ++ ". " ++ e.message) = configErrorMessage :=
              congrArg JsError.message (Option.some.inj h)
            exact absurd h5 (failed_ne_config ctx e.message)
          · left
            simp [handleError, handleErrorNoProbe, h1, h2, h4]

/-- Witness for C9 (amended): on a message detected by the substring
check, the probe-less classification already implies the full one. -/
theorem claim_C9_amended_witness :
    handleError (JsValue.jsError { message := "API key not valid" }) "generate image" =
      some { message := configErrorMessage } :=
  (claim_C9_amended (JsValue.jsError { message := "API key not valid" }) "generate image").1
    (by decide)

end GeminiService
